import Mathlib

/-!
Verification of the FridgeOS HAL and state-machine cores against their
natural-language specification.  The Python sources (`fridgeos/hal.py` and
`fridgeos/statemachine.py`) are shallowly embedded: Python dicts become
association lists over `String` keys, machine floats become `ℚ`, and code
that can raise becomes `Except`-valued.  Each definition names the source
function it embeds.
-/

namespace FridgeOS

/-- Python `d[k]` / `k in d` lookup on an insertion-ordered dict, modelled as an
association list.  Returns the first binding (Python dicts have unique keys). -/
def dictLookup {κ α : Type} [DecidableEq κ] : List (κ × α) → κ → Option α
  | [], _ => none
  | p :: rest, k => if p.1 = k then some p.2 else dictLookup rest k

/-- Python `d[k] = v` dict assignment: replace the binding in place if the key
is present, otherwise append a new binding (insertion order preserved). -/
def dictSet {κ α : Type} [DecidableEq κ] : List (κ × α) → κ → α → List (κ × α)
  | [], k, v => [(k, v)]
  | p :: rest, k, v => if p.1 = k then (k, v) :: rest else p :: dictSet rest k v

/-- A Python exception relevant to the embedded code paths: `KeyError` (dict
lookup of a missing key), `ValueError` (raised by `HALServer.get_hardware` for
unknown device names and by parsers), or an opaque driver exception. -/
inductive PyErr : Type where
  | keyError (key : String)
  | valueError (msg : String)
  | driverError
deriving DecidableEq

theorem dictLookup_dictSet {κ α : Type} [DecidableEq κ]
    (d : List (κ × α)) (k : κ) (v : α) : dictLookup (dictSet d k v) k = some v := by
  induction d with
  | nil => simp [dictSet, dictLookup]
  | cons p rest ih =>
    by_cases h : p.1 = k
    · simp [dictSet, dictLookup, h]
    · simp [dictSet, dictLookup, h, ih]

theorem dictLookup_map_value {κ α β : Type} [DecidableEq κ]
    (f : α → β) (d : List (κ × α)) (k : κ) :
    dictLookup (d.map (fun p => (p.1, f p.2))) k = Option.map f (dictLookup d k) := by
  induction d with
  | nil => simp [dictLookup]
  | cons p rest ih =>
    by_cases h : p.1 = k
    · simp [dictLookup, h]
    · simp [dictLookup, h, ih]

theorem dictLookup_isSome_of_mem {κ α : Type} [DecidableEq κ]
    (d : List (κ × α)) (k : κ) (h : k ∈ d.map Prod.fst) :
    (dictLookup d k).isSome = true := by
  induction d with
  | nil => simp at h
  | cons p rest ih =>
    by_cases hk : p.1 = k
    · simp [dictLookup, hk]
    · simp only [List.map_cons, List.mem_cons] at h
      rcases h with h | h
      · exact absurd h.symm hk
      · simp [dictLookup, hk, ih h]

theorem dictLookup_eq_of_mem_nodup {κ α : Type} [DecidableEq κ]
    (d : List (κ × α)) (hnd : (d.map Prod.fst).Nodup) (p : κ × α) (hp : p ∈ d) :
    dictLookup d p.1 = some p.2 := by
  induction d with
  | nil => simp at hp
  | cons q rest ih =>
    simp only [List.map_cons, List.nodup_cons] at hnd
    rcases List.mem_cons.mp hp with h | h
    · subst h; simp [dictLookup]
    · have hne : q.1 ≠ p.1 := by
        intro he
        exact hnd.1 (he ▸ List.mem_map_of_mem Prod.fst h)
      simp [dictLookup, hne, ih hnd.2 h]

namespace HAL

/-- One entry of `HALServer.hardware['heaters']`: the `max_value` metadata kept
for each heater (`hal.py`, `load_hardware` / `get_heater_max_values`).  The
driver object itself carries no state relevant to the claims: the value passed
to `hw.set_heater_value` is what the embedding returns. -/
structure HeaterHW : Type where
  max_value : ℚ
deriving DecidableEq

/-- `HALServer.get_heater_max_values` (`hal.py` lines 355-360): the dict
`{name: max_value}` over all registered heaters. -/
def get_heater_max_values (heaters : List (String × HeaterHW)) : List (String × ℚ) :=
  heaters.map (fun p => (p.1, p.2.max_value))

/-- `HALServer.get_hardware` (`hal.py` lines 229-236): raises `ValueError` when
the device name is not registered, otherwise returns the device object. -/
def get_hardware {α : Type} (reg : List (String × α)) (name : String) : Except PyErr α :=
  match dictLookup reg name with
  | none => Except.error (PyErr.valueError name)
  | some o => Except.ok o

/-- `HALServer.set_heater_value` (`hal.py` lines 329-336).  The first statement
evaluates `self.get_heater_max_values()[name]`, which raises `KeyError` when
`name` is not a registered heater; only afterwards is `get_hardware` (the
`ValueError` path) reached.  If `value > max_value` the value is replaced by
`max_value`; there is no branch for `value < 0`.  The returned rational is the
value passed to the driver's write. -/
def set_heater_value (heaters : List (String × HeaterHW)) (name : String)
    (value : ℚ) : Except PyErr ℚ :=
  match dictLookup (get_heater_max_values heaters) name with
  | none => Except.error (PyErr.keyError name)
  | some mx =>
    let v := if mx < value then mx else value
    match get_hardware heaters name with
    | Except.error e => Except.error e
    | Except.ok _ => Except.ok v

/-- The `PUT /heater/{name}/value` route handler (`hal.py` lines 191-204):
a `ValueError` from `set_heater_value` is mapped to HTTP 404, any other
exception to HTTP 500, success to 200. -/
def set_single_heater_value_status (heaters : List (String × HeaterHW))
    (name : String) (value : ℚ) : Nat :=
  match set_heater_value heaters name value with
  | Except.ok _ => 200
  | Except.error (PyErr.valueError _) => 404
  | Except.error _ => 500

/-- The index loop of numpy's `binary_search_with_guess` for `len <= 4`
(`numpy/core/src/multiarray/compiled_base.c`):
`for (i = 1; i < len && key >= arr[i]; ++i); return i - 1;`.
The argument is the tail of the axis and `i` starts at 1. -/
def linScanAux (key : ℚ) : List ℚ → Nat → Nat
  | [], i => i
  | a :: rest, i => if key ≥ a then linScanAux key rest (i + 1) else i

/-- The bisection loop of numpy's `binary_search_with_guess` for `len > 4`
(the guess probing narrows the same bracket and agrees with plain bisection on
sorted axes): `while (imin < imax) { imid = imin + (imax-imin)/2;
if (key >= arr[imid]) imin = imid+1; else imax = imid; }`.  The first argument
is fuel; the interval shrinks every step, so `arr.length` steps suffice. -/
def bisectAux (key : ℚ) (arr : List ℚ) : Nat → Nat → Nat → Nat
  | 0, imin, _ => imin
  | fuel + 1, imin, imax =>
    if imin < imax then
      let imid := imin + (imax - imin) / 2
      if key ≥ arr.getD imid 0 then bisectAux key arr fuel (imid + 1) imax
      else bisectAux key arr fuel imin imid
    else imin

/-- numpy's `binary_search_with_guess`: keys beyond the last element return
`len`, keys below the first return `-1`, otherwise the scan/bisection index
minus one.  The function assumes an ascending `arr`; on other inputs it is
deterministic garbage, which is exactly what `np.interp` then consumes. -/
def numpySearch (key : ℚ) (arr : List ℚ) : Int :=
  let len := arr.length
  if arr.getD (len - 1) 0 < key then (len : Int)
  else if key < arr.getD 0 0 then -1
  else if len ≤ 4 then (linScanAux key arr.tail 1 : Int) - 1
  else (bisectAux key arr len 0 len : Int) - 1

/-- `np.interp(x, xp, fp)` as implemented by numpy's `arr_interp`
(`compiled_base.c`), over `ℚ`: a one-point axis returns `fp[0]`; otherwise the
search index selects the left endpoint (`-1`), the right endpoint (`len`), an
exact node, or a linear segment `fp[j] + slope * (x - xp[j])`. -/
def npInterp (x : ℚ) (xp fp : List ℚ) : ℚ :=
  let lenxp := xp.length
  if lenxp = 1 then fp.getD 0 0
  else
    let lval := fp.getD 0 0
    let rval := fp.getD (lenxp - 1) 0
    let j := numpySearch x xp
    if j < 0 then lval
    else if j = (lenxp : Int) then rval
    else
      let jn := j.toNat
      if jn = lenxp - 1 then fp.getD jn 0
      else if xp.getD jn 0 = x then fp.getD jn 0
      else
        (fp.getD (jn + 1) 0 - fp.getD jn 0) / (xp.getD (jn + 1) 0 - xp.getD jn 0) *
          (x - xp.getD jn 0) + fp.getD jn 0

/-- `HALServer._load_calibration_curve` (`hal.py` lines 238-251): loads the CSV
with `np.loadtxt` and caches it.  The function performs no transformation of
the parsed rows — in particular no reversal — so on the level of table
content it is the identity.  A row is a `(temperature, raw_value)` pair. -/
def load_calibration_curve (content : List (ℚ × ℚ)) : List (ℚ × ℚ) := content

/-- `HALServer._apply_calibration` (`hal.py` lines 253-263): `None` passes
through; otherwise `np.interp(raw_value, cal_array[:, 1], cal_array[:, 0])`,
i.e. interpolation with the raw column (`Prod.snd`) as the x-axis and the
temperature column (`Prod.fst`) as the y-axis, on the table exactly as loaded. -/
def apply_calibration (raw_value : Option ℚ) (table : List (ℚ × ℚ)) : Option ℚ :=
  match raw_value with
  | none => none
  | some r =>
    some (npInterp r ((load_calibration_curve table).map Prod.snd)
      ((load_calibration_curve table).map Prod.fst))

/-- One entry of `HALServer.hardware['thermometers']`: the driver's
`get_temperature` call (which either returns a raw reading or raises, modelled
as `Except Unit ℚ`) and the optional `conversion_csv` calibration table
(modelled by its parsed content). -/
structure Thermometer : Type where
  read : Except Unit ℚ
  conversion_csv : Option (List (ℚ × ℚ))

/-- The value a thermometer contributes to a reading: the body of the `try`
block of `HALServer.get_temperature` — `None` when the driver raises,
otherwise the raw reading, calibrated when a `conversion_csv` is attached. -/
def thermometer_value (t : Thermometer) : Option ℚ :=
  match t.read with
  | Except.error _ => none
  | Except.ok raw =>
    match t.conversion_csv with
    | none => some raw
    | some tbl => apply_calibration (some raw) tbl

/-- `HALServer.get_temperature` (`hal.py` lines 305-321): `get_hardware` is
called outside the `try` block, so an unknown name raises `ValueError`; inside
the `try`, any driver or calibration exception is caught and the reading
becomes `None`.  Returns the one-entry dict `{name: temp}`. -/
def get_temperature (therms : List (String × Thermometer)) (name : String) :
    Except PyErr (String × Option ℚ) :=
  match dictLookup therms name with
  | none => Except.error (PyErr.valueError name)
  | some t => Except.ok (name, thermometer_value t)

/-- The loop of `HALServer.get_temperatures` (`hal.py` lines 338-344): calls
`get_temperature` for each name in turn and accumulates the entries; an
uncaught exception from any call would abort the whole aggregate. -/
def get_temperatures_aux (therms : List (String × Thermometer)) :
    List String → Except PyErr (List (String × Option ℚ))
  | [] => Except.ok []
  | n :: rest =>
    match get_temperature therms n with
    | Except.error e => Except.error e
    | Except.ok entry =>
      match get_temperatures_aux therms rest with
      | Except.error e => Except.error e
      | Except.ok l => Except.ok (entry :: l)

/-- `HALServer.get_temperatures`: iterates over the registered thermometer
names (`self.hardware['thermometers'].keys()`). -/
def get_temperatures (therms : List (String × Thermometer)) :
    Except PyErr (List (String × Option ℚ)) :=
  get_temperatures_aux therms (therms.map Prod.fst)

end HAL

theorem get_temperatures_aux_ok (therms : List (String × HAL.Thermometer)) :
    ∀ names : List String, (∀ n ∈ names, (dictLookup therms n).isSome = true) →
    HAL.get_temperatures_aux therms names =
      Except.ok (names.map (fun n =>
        (n, Option.bind (dictLookup therms n) HAL.thermometer_value)))
  | [], _ => rfl
  | n :: rest, h => by
    obtain ⟨t, ht⟩ := Option.isSome_iff_exists.mp (h n (List.mem_cons_self n rest))
    have hrest := get_temperatures_aux_ok therms rest
      (fun m hm => h m (List.mem_cons_of_mem n hm))
    simp [HAL.get_temperatures_aux, HAL.get_temperature, ht, hrest]

/-- C6: for every thermometer registry (with the unique names the HAL load
enforces), `get_temperatures` never raises: it returns one entry per
registered thermometer, where a device whose driver raises contributes `None`
(null) and every other device contributes its — possibly calibrated —
reading (`thermometer_value`). -/
theorem get_temperatures_isolates_failures (therms : List (String × HAL.Thermometer))
    (hnd : (therms.map Prod.fst).Nodup) :
    HAL.get_temperatures therms =
      Except.ok (therms.map (fun p => (p.1, HAL.thermometer_value p.2))) ∧
    ∀ p ∈ therms, p.2.read = Except.error () → HAL.thermometer_value p.2 = none := by
  constructor
  · rw [HAL.get_temperatures, get_temperatures_aux_ok therms (therms.map Prod.fst)
      (fun n hn => dictLookup_isSome_of_mem therms n hn), List.map_map]
    congr 1
    refine List.map_congr_left (fun p hp => ?_)
    simp [Function.comp, dictLookup_eq_of_mem_nodup therms hnd p hp]
  · intro p _ h
    simp [HAL.thermometer_value, h]

/-- C6 (witness): a registry with a faulty thermometer `a`, a plain one `b`,
and a calibrated one `c`; the aggregate succeeds with `a ↦ null`, `b ↦ 5`,
and `c ↦ 15` (raw `2` through the table `[(10, 1), (20, 3)]`). -/
theorem get_temperatures_isolates_failures_witness :
    ([("a", (⟨Except.error (), none⟩ : HAL.Thermometer)),
      ("b", ⟨Except.ok 5, none⟩),
      ("c", ⟨Except.ok 2, some [((10 : ℚ), 1), (20, 3)]⟩)].map Prod.fst).Nodup ∧
    HAL.get_temperatures
      [("a", (⟨Except.error (), none⟩ : HAL.Thermometer)),
       ("b", ⟨Except.ok 5, none⟩),
       ("c", ⟨Except.ok 2, some [((10 : ℚ), 1), (20, 3)]⟩)] =
      Except.ok [("a", none), ("b", some 5), ("c", some 15)] := by
  refine ⟨by decide, ?_⟩
  rw [(get_temperatures_isolates_failures _ (by decide)).1]
  norm_num [HAL.thermometer_value, HAL.apply_calibration, HAL.load_calibration_curve,
    HAL.npInterp, HAL.numpySearch, HAL.linScanAux]

/-- C4 (counterexample): the table `[(T=2, raw=2), (T=4, raw=1)]` has a
monotonically decreasing raw axis `[2, 1]`.  Loading does not reverse it
(`load_calibration_curve` returns the rows unchanged, not reversed), and the
interpolation at raw `3/2` returns `4` — `np.interp` on the decreasing axis
falls into its right-endpoint branch — whereas interpolation over the reversed
(ascending) axes yields the correct value `3`. -/
theorem calibration_decreasing_axis_not_reversed_cex :
    HAL.load_calibration_curve [((2 : ℚ), (2 : ℚ)), (4, 1)] ≠
      List.reverse [((2 : ℚ), (2 : ℚ)), (4, 1)] ∧
    HAL.apply_calibration (some (3 / 2)) [((2 : ℚ), (2 : ℚ)), (4, 1)] = some 4 ∧
    HAL.npInterp (3 / 2) [(1 : ℚ), 2] [4, 2] = 3 ∧
    ((2 : ℚ) > 1) := by
  refine ⟨by decide, ?_, ?_, by norm_num⟩
  · norm_num [HAL.apply_calibration, HAL.load_calibration_curve, HAL.npInterp,
      HAL.numpySearch, HAL.linScanAux]
  · norm_num [HAL.npInterp, HAL.numpySearch, HAL.linScanAux]

/-- C4 (amended): loading a calibration table performs no reversal — the cached
table equals the parsed file content for every table, decreasing or not — and
the raw-to-temperature conversion is `np.interp` over the raw axis exactly as
stored.  Consequently the conversion is correct (the linear interpolant) when
the stored raw axis is ascending, shown here for a two-point table with the
query in range, but not for decreasing tables (see the counterexample). -/
theorem npInterp_twopoint_ascending (t0 t1 r0 r1 x : ℚ) (h01 : r0 < r1)
    (hx0 : r0 ≤ x) (hx1 : x ≤ r1) :
    HAL.npInterp x [r0, r1] [t0, t1] = (t1 - t0) / (r1 - r0) * (x - r0) + t0 := by
  have hne : r1 - r0 ≠ 0 := sub_ne_zero.mpr (ne_of_gt h01)
  have hs : HAL.numpySearch x [r0, r1] = if r1 ≤ x then 1 else 0 := by
    by_cases h : r1 ≤ x
    · simp [HAL.numpySearch, HAL.linScanAux, h, not_lt.mpr hx1, not_lt.mpr hx0]
    · simp [HAL.numpySearch, HAL.linScanAux, h, not_lt.mpr hx1, not_lt.mpr hx0]
  by_cases h : r1 ≤ x
  · have hx : x = r1 := le_antisymm hx1 h
    subst hx
    simp only [HAL.npInterp, hs, if_pos h]
    norm_num
    field_simp
  · simp only [HAL.npInterp, hs, if_neg h]
    norm_num
    intro he
    right
    rw [he]
    exact sub_self x

theorem calibration_no_reversal_and_ascending_correct (content : List (ℚ × ℚ))
    (t0 t1 r0 r1 x : ℚ) (h01 : r0 < r1) (hx0 : r0 ≤ x) (hx1 : x ≤ r1) :
    HAL.load_calibration_curve content = content ∧
    HAL.apply_calibration (some x) [(t0, r0), (t1, r1)] =
      some ((t1 - t0) / (r1 - r0) * (x - r0) + t0) := by
  refine ⟨rfl, ?_⟩
  simp only [HAL.apply_calibration, HAL.load_calibration_curve, List.map_cons,
    List.map_nil]
  rw [npInterp_twopoint_ascending t0 t1 r0 r1 x h01 hx0 hx1]

/-- C4 (witness): concrete instantiation of
`calibration_no_reversal_and_ascending_correct` at the spec's S6 table
`[(T=4, raw=1), (T=2, raw=2)]` with query raw `3/2`, giving temperature `3`. -/
theorem calibration_no_reversal_witness :
    HAL.load_calibration_curve [((4 : ℚ), (1 : ℚ)), (2, 2)] = [((4 : ℚ), (1 : ℚ)), (2, 2)] ∧
    HAL.apply_calibration (some (3 / 2)) [((4 : ℚ), (1 : ℚ)), (2, 2)] = some 3 := by
  have h := calibration_no_reversal_and_ascending_correct [((4 : ℚ), (1 : ℚ)), (2, 2)]
    4 2 1 2 (3 / 2) (by norm_num) (by norm_num) (by norm_num)
  refine ⟨h.1, ?_⟩
  rw [h.2]
  norm_num

/-- C1 (counterexample): with a registered heater of `max_value = 10`, the
request `set_heater_value "h" (-5)` passes `-5` — a negative value — to the
driver's write, not `0` as the claim requires ("if v < 0 it writes 0"). -/
theorem set_heater_value_negative_not_clamped_cex :
    HAL.set_heater_value [("h", (⟨10⟩ : HAL.HeaterHW))] "h" (-5) = Except.ok (-5) ∧
    ((-5 : ℚ) < 0 ∧ (-5 : ℚ) ≠ 0) :=
  ⟨rfl, by norm_num⟩

/-- C1 (amended): for every registered heater, `set_heater_value` clamps only
from above: it writes `max_value` when `v > max_value` and writes `v` unchanged
otherwise — in particular a negative `v` (below any non-negative `max_value`)
is written as-is, so the written value lies in `(-∞, max_value]`, not
`[0, max_value]`. -/
theorem set_heater_value_upper_clamp_only (heaters : List (String × HAL.HeaterHW))
    (name : String) (value : ℚ) (hw : HAL.HeaterHW)
    (h : dictLookup heaters name = some hw) (h0 : 0 ≤ hw.max_value) :
    HAL.set_heater_value heaters name value =
      Except.ok (if hw.max_value < value then hw.max_value else value) ∧
    (value < 0 → HAL.set_heater_value heaters name value = Except.ok value) := by
  have hmx : dictLookup (HAL.get_heater_max_values heaters) name = some hw.max_value := by
    rw [HAL.get_heater_max_values, dictLookup_map_value, h]; rfl
  constructor
  · simp [HAL.set_heater_value, hmx, HAL.get_hardware, h]
  · intro hneg
    have hnc : ¬ hw.max_value < value := not_lt.mpr (le_of_lt (lt_of_lt_of_le hneg h0))
    simp [HAL.set_heater_value, hmx, HAL.get_hardware, h, hnc]

/-- C1 (witness): concrete instantiation of `set_heater_value_upper_clamp_only`
at a heater with `max_value = 10` and the request value `-5`. -/
theorem set_heater_value_upper_clamp_only_witness :
    dictLookup [("h", (⟨10⟩ : HAL.HeaterHW))] "h" = some (⟨10⟩ : HAL.HeaterHW) ∧
    HAL.set_heater_value [("h", (⟨10⟩ : HAL.HeaterHW))] "h" (-5) = Except.ok (-5) :=
  ⟨rfl, (set_heater_value_upper_clamp_only [("h", ⟨10⟩)] "h" (-5) ⟨10⟩ rfl
    (by norm_num)).2 (by norm_num)⟩

/-- C5 (code bug): for a name that is not a registered heater, the very first
statement of `set_heater_value` — `self.get_heater_max_values()[name]` — raises
`KeyError`, which the `PUT /heater/{name}/value` route maps to HTTP 500 via its
generic `except Exception` arm; the `except ValueError → 404` arm (fed by
`get_hardware`) is never reached.  The spec's promised 404/NotFound does not
happen. -/
theorem set_heater_unknown_name_gives_500 :
    HAL.set_heater_value [("h", (⟨10⟩ : HAL.HeaterHW))] "x" 1 =
      Except.error (PyErr.keyError "x") ∧
    HAL.set_single_heater_value_status [("h", (⟨10⟩ : HAL.HeaterHW))] "x" 1 = 500 :=
  ⟨rfl, rfl⟩

namespace SM

/-- A comparison operator of a transition criterion
(`StateMachineServer._parse_criterion`): `<` maps to `operator.lt` and `>` to
`operator.gt`; anything else is a load error. -/
inductive CmpOp : Type where
  | lt
  | gt
deriving DecidableEq

/-- A parsed criterion `{'sensor': …, 'op': …, 'value': …}`. -/
structure Criterion : Type where
  sensor : String
  op : CmpOp
  value : ℚ
deriving DecidableEq

/-- A parsed transition `{'from': …, 'to': …, 'criteria': …}`
(`StateMachineServer._load_transitions`); the `from` key always holds a list
after loading (a single string is wrapped). -/
structure Transition : Type where
  fromStates : List String
  toState : String
  criteria : List Criterion
deriving DecidableEq

/-- One entry of `StateMachineServer.heaters` (`_load_heaters`): a PID heater
carries its corresponding thermometer and the mutable PID setpoint; a direct
heater carries the latched `current_value` (absent until a state supplies
one).  The PID's gains and integral state live in the external `simple_pid`
library and are abstracted. -/
inductive HeaterCfg : Type where
  | pid (corresponding_thermometer : String) (setpoint : ℚ)
  | direct (current_value : Option ℚ)
deriving DecidableEq

/-- The mutable fields of `StateMachineServer` the claims touch, plus the
loaded configuration tables. -/
structure SMState : Type where
  current_state : String
  state_entry_time : ℚ
  criteria : List Transition
  state_timeouts : List ((String × String) × ℚ)
  states : List (String × List (String × ℚ))
  heaters : List (String × HeaterCfg)
  current_heater_values : List (String × ℚ)
  required_password : Option String
deriving DecidableEq

/-- `StateMachineServer._check_criterion` (`statemachine.py` lines 710-725):
a sensor missing from the temperature listing or reading `None` makes the
criterion false; otherwise the comparison is applied.  The temperature
snapshot the method fetches from the HAL is passed as `temps`. -/
def check_criterion (temps : List (String × Option ℚ)) (c : Criterion) : Bool :=
  match dictLookup temps c.sensor with
  | none => false
  | some none => false
  | some (some t) =>
    match c.op with
    | CmpOp.lt => decide (t < c.value)
    | CmpOp.gt => decide (c.value < t)

/-- The loop of `StateMachineServer.check_transitions` (`statemachine.py`
lines 736-748): for each transition whose `from` contains the current state,
return it when all its criteria hold (`all(...)`, vacuously true for an empty
list) or when its timeout is set and `now - state_entry_time > timeout`. -/
def check_transitions_aux (now : ℚ) (st : SMState) (temps : List (String × Option ℚ)) :
    List Transition → Option Transition
  | [] => none
  | t :: rest =>
    if st.current_state ∈ t.fromStates then
      if t.criteria.all (check_criterion temps) then some t
      else
        match dictLookup st.state_timeouts (st.current_state, t.toState) with
        | some timeout =>
          if timeout < now - st.state_entry_time then some t
          else check_transitions_aux now st temps rest
        | none => check_transitions_aux now st temps rest
    else check_transitions_aux now st temps rest

/-- `StateMachineServer.check_transitions` (`statemachine.py` lines 727-748):
in the `PAUSED` state no automatic transition is ever returned. -/
def check_transitions (now : ℚ) (st : SMState) (temps : List (String × Option ℚ)) :
    Option Transition :=
  if st.current_state = "PAUSED" then none
  else check_transitions_aux now st temps st.criteria

/-- `StateMachineServer.update_heater_setpoints` (`statemachine.py` lines
677-708).  `self.states[new_state]` is read first (a `KeyError` for unknown
states — unreachable from `make_transition`, which checks membership); in the
`PAUSED` state nothing is updated; otherwise each PID heater whose
corresponding thermometer appears in the state's target map gets that
setpoint, and each direct heater whose own name appears gets that value
latched as `current_value`.  `apply_state_config` is the per-heater body of
that loop. -/
def apply_state_config (state_config : List (String × ℚ)) (p : String × HeaterCfg) :
    String × HeaterCfg :=
  (p.1,
    match p.2 with
    | HeaterCfg.pid therm sp =>
      match dictLookup state_config therm with
      | some v => HeaterCfg.pid therm v
      | none => HeaterCfg.pid therm sp
    | HeaterCfg.direct cv =>
      match dictLookup state_config p.1 with
      | some v => HeaterCfg.direct (some v)
      | none => HeaterCfg.direct cv)

/-- `StateMachineServer.update_heater_setpoints`, assembled from
`apply_state_config`: the `KeyError` arm for an unknown state, the `PAUSED`
early return, and the loop over all heaters. -/
def update_heater_setpoints (states : List (String × List (String × ℚ)))
    (heaters : List (String × HeaterCfg)) (new_state : String) :
    Except PyErr (List (String × HeaterCfg)) :=
  match dictLookup states new_state with
  | none => Except.error (PyErr.keyError new_state)
  | some state_config =>
    if new_state = "PAUSED" then Except.ok heaters
    else Except.ok (heaters.map (apply_state_config state_config))

/-- `StateMachineServer.make_transition` (`statemachine.py` lines 758-767):
an unknown state returns `False` with nothing mutated; a known state sets
`current_state`, stamps `state_entry_time := now` (`time.time()`), applies
`update_heater_setpoints`, and returns `True`.  The `Except.error` arm of the
setpoint update is unreachable here because membership was just checked. -/
def make_transition (st : SMState) (now : ℚ) (new_state : String) : Bool × SMState :=
  match dictLookup st.states new_state with
  | none => (false, st)
  | some _ =>
    match update_heater_setpoints st.states st.heaters new_state with
    | Except.ok hs =>
      (true, { st with current_state := new_state, state_entry_time := now, heaters := hs })
    | Except.error _ =>
      (true, { st with current_state := new_state, state_entry_time := now })

/-- `StateMachineServer.attempt_transition` (`statemachine.py` lines 750-756):
take the transition `check_transitions` returns, if any. -/
def attempt_transition (st : SMState) (now : ℚ) (temps : List (String × Option ℚ)) :
    SMState :=
  match check_transitions now st temps with
  | some t => (make_transition st now t.toState).2
  | none => st

/-- `StateMachineServer._validate_password` (`statemachine.py` lines 107-115):
no configured password accepts everything; a configured password rejects a
missing one and otherwise compares for equality. -/
def validate_password (required provided : Option String) : Bool :=
  match required with
  | none => true
  | some r =>
    match provided with
    | none => false
    | some p => p == r

/-- The `PUT /state` route handler `set_state` (`statemachine.py` lines
186-215): password failure → HTTP 401 with no transition attempted;
`make_transition` success → 200 with the new state; `make_transition` failure
→ 400 with the state untouched. -/
def set_state (st : SMState) (now : ℚ) (req_state : String)
    (req_password : Option String) : Nat × SMState :=
  if validate_password st.required_password req_password then
    match make_transition st now req_state with
    | (true, st2) => (200, st2)
    | (false, _) => (400, st)
  else (401, st)

/-- `StateMachineServer.set_heater_value` (`statemachine.py` lines 801-817).
The HAL write is abstracted as `hal_write`; the third component of the result
lists the HAL calls the method issued.  An unknown heater returns `False`
before any HAL call; a raising HAL write is caught and returns `False` with
the cached `current_heater_values` untouched; only after a successful write is
the cache entry set to `value`. -/
def sm_set_heater_value (hal_write : String → ℚ → Except Unit Unit) (st : SMState)
    (heater_name : String) (value : ℚ) : Bool × SMState × List (String × ℚ) :=
  match dictLookup st.heaters heater_name with
  | none => (false, st, [])
  | some _ =>
    match hal_write heater_name value with
    | Except.error _ => (false, st, [(heater_name, value)])
    | Except.ok _ =>
      (true,
       { st with current_heater_values := dictSet st.current_heater_values heater_name value },
       [(heater_name, value)])

/-- The heater-write portion of `StateMachineServer.update_heaters`
(`statemachine.py` lines 819-872), as the list of `set_heater_value` calls one
tick issues.  The temperature and heater-value fetches that precede it are
reads, not writes.  In the `PAUSED` state the method returns before the loop,
issuing no writes; otherwise each PID heater with a present, non-`None`
temperature writes the PID output (`pid_out`, abstracting the stateful
`simple_pid` controller), and each direct heater with a latched
`current_value` writes it. -/
def update_heaters_writes (current_state : String) (heaters : List (String × HeaterCfg))
    (temps : List (String × Option ℚ)) (pid_out : String → ℚ → ℚ) :
    List (String × ℚ) :=
  if current_state = "PAUSED" then []
  else
    heaters.foldr (fun p acc =>
      match p.2 with
      | HeaterCfg.pid therm _ =>
        match dictLookup temps therm with
        | none => acc
        | some none => acc
        | some (some T) => (p.1, pid_out p.1 T) :: acc
      | HeaterCfg.direct cv =>
        match cv with
        | some v => (p.1, v) :: acc
        | none => acc) []

/-- A TOML value inside a `[states.<name>]` section: a number or a string
token (possibly a constant reference). -/
inductive TomlVal : Type where
  | num (q : ℚ)
  | str (s : String)
deriving DecidableEq

/-- `StateMachineServer._load_states` (`statemachine.py` lines 641-675):
resolves string tokens that name a constant, keeps everything else as-is,
and then unconditionally assigns `parsed_states['PAUSED'] = {}` — overwriting
any `PAUSED` section the configuration itself declared. -/
def load_states (constants : List (String × ℚ))
    (config_states : List (String × List (String × TomlVal))) :
    List (String × List (String × TomlVal)) :=
  let parsed := config_states.map (fun p =>
    (p.1, p.2.map (fun kv =>
      (kv.1,
        match kv.2 with
        | TomlVal.str s =>
          match dictLookup constants s with
          | some q => TomlVal.num q
          | none => TomlVal.str s
        | v => v))))
  dictSet parsed "PAUSED" []

end SM

/-- A state machine poised in state `A` with a single transition `A → B` that
has an empty criteria list and `max_seconds = 100`, entered at time `0`. -/
def smC2 : SM.SMState :=
  ⟨"A", 0, [⟨["A"], "B", []⟩], [(("A", "B"), 100)],
   [("A", []), ("B", []), ("PAUSED", [])], [], [], none⟩

/-- C2 (counterexample): at `now = 0`, so `now − state_entry_time = 0 ≤ 100 =
max_seconds`, `check_transitions` already returns the empty-criteria transition
`A → B` — `all()` over an empty criteria list is vacuously true — contradicting
the claim that it is not returned before the timeout elapses. -/
theorem check_transitions_empty_criteria_timeout_cex :
    SM.check_transitions 0 smC2 [] = some ⟨["A"], "B", []⟩ ∧ (0 : ℚ) - 0 ≤ 100 := by
  refine ⟨?_, by norm_num⟩
  simp [SM.check_transitions, SM.check_transitions_aux, smC2]

/-- C2 (amended): a transition whose criteria list is empty is returned by
`check_transitions` as soon as it is examined — at every `now`, regardless of
`max_seconds` — because `all` of an empty criteria list is vacuously true and
that branch precedes the timeout branch.  (Stated for the first transition of
the list; later positions behave the same once the earlier ones decline.) -/
theorem check_transitions_empty_criteria_fires_immediately
    (now : ℚ) (st : SM.SMState) (temps : List (String × Option ℚ))
    (t : SM.Transition) (rest : List SM.Transition)
    (hp : st.current_state ≠ "PAUSED") (hc : st.criteria = t :: rest)
    (hf : st.current_state ∈ t.fromStates) (he : t.criteria = []) :
    SM.check_transitions now st temps = some t := by
  simp [SM.check_transitions, hp, hc, SM.check_transitions_aux, hf, he]

/-- C2 (witness): concrete instantiation of
`check_transitions_empty_criteria_fires_immediately` on `smC2` at `now = 5`. -/
theorem check_transitions_empty_criteria_witness :
    smC2.current_state ≠ "PAUSED" ∧
    SM.check_transitions 5 smC2 [] = some ⟨["A"], "B", []⟩ :=
  ⟨by decide,
   check_transitions_empty_criteria_fires_immediately 5 smC2 [] ⟨["A"], "B", []⟩ []
     (by decide) rfl (by decide) rfl⟩

/-- C3: whenever the machine is in `PAUSED`, `update_heaters` issues no heater
write, `check_transitions` returns no transition, and hence a tick's
`attempt_transition` leaves the state untouched — only an explicit
`make_transition` (manual resume) can leave `PAUSED`. -/
theorem paused_no_writes_no_auto_transition (st : SM.SMState) (now : ℚ)
    (temps : List (String × Option ℚ)) (pid_out : String → ℚ → ℚ)
    (h : st.current_state = "PAUSED") :
    SM.update_heaters_writes st.current_state st.heaters temps pid_out = [] ∧
    SM.check_transitions now st temps = none ∧
    SM.attempt_transition st now temps = st := by
  refine ⟨by simp [SM.update_heaters_writes, h], by simp [SM.check_transitions, h], ?_⟩
  simp [SM.attempt_transition, SM.check_transitions, h]

/-- A paused machine whose configuration would otherwise write heaters (one
latched direct heater, one PID heater) and has an applicable transition out of
`PAUSED`. -/
def smC3 : SM.SMState :=
  ⟨"PAUSED", 0, [⟨["PAUSED"], "A", []⟩], [],
   [("A", [("h", 3), ("t", 2)]), ("PAUSED", [])],
   [("h", SM.HeaterCfg.direct (some 3)), ("p", SM.HeaterCfg.pid "t" 1)], [], none⟩

/-- C3 (witness): concrete instantiation of `paused_no_writes_no_auto_transition`
on `smC3`. -/
theorem paused_no_writes_witness :
    smC3.current_state = "PAUSED" ∧
    SM.update_heaters_writes smC3.current_state smC3.heaters [("t", some 2)]
      (fun _ T => T) = [] ∧
    SM.attempt_transition smC3 7 [("t", some 2)] = smC3 :=
  ⟨rfl,
   (paused_no_writes_no_auto_transition smC3 7 [("t", some 2)] (fun _ T => T) rfl).1,
   (paused_no_writes_no_auto_transition smC3 7 [("t", some 2)] (fun _ T => T) rfl).2.2⟩

theorem make_transition_unknown (st : SM.SMState) (now : ℚ) (s : String)
    (h : dictLookup st.states s = none) : SM.make_transition st now s = (false, st) := by
  simp [SM.make_transition, h]

theorem make_transition_known (st : SM.SMState) (now : ℚ) (s : String)
    (cfg : List (String × ℚ)) (h : dictLookup st.states s = some cfg) :
    ∃ hs, SM.update_heater_setpoints st.states st.heaters s = Except.ok hs ∧
      SM.make_transition st now s =
        (true, { st with current_state := s, state_entry_time := now, heaters := hs }) := by
  have hup : ∃ hs, SM.update_heater_setpoints st.states st.heaters s = Except.ok hs := by
    simp only [SM.update_heater_setpoints, h]
    by_cases hP : s = "PAUSED"
    · rw [if_pos hP]
      exact ⟨st.heaters, rfl⟩
    · rw [if_neg hP]
      exact ⟨st.heaters.map (SM.apply_state_config cfg), rfl⟩
  obtain ⟨hs, hhs⟩ := hup
  exact ⟨hs, hhs, by simp [SM.make_transition, h, hhs]⟩

/-- C7: `make_transition(S)` for an unknown `S` returns failure with the whole
state — in particular `current_state` and `state_entry_time` — untouched; for
a known `S` it returns success with `current_state = S`, `state_entry_time`
stamped with the instant of the transition, and the heater setpoints updated
by `update_heater_setpoints S`. -/
theorem make_transition_spec (st : SM.SMState) (now : ℚ) (s : String) :
    (dictLookup st.states s = none → SM.make_transition st now s = (false, st)) ∧
    (∀ cfg, dictLookup st.states s = some cfg →
      ∃ hs, SM.update_heater_setpoints st.states st.heaters s = Except.ok hs ∧
        SM.make_transition st now s =
          (true, { st with current_state := s, state_entry_time := now, heaters := hs })) :=
  ⟨make_transition_unknown st now s, fun cfg h => make_transition_known st now s cfg h⟩

/-- A machine in state `A` with a second state `B` that supplies a value for
the direct heater `h`. -/
def smC7 : SM.SMState :=
  ⟨"A", 0, [], [], [("A", []), ("B", [("h", 3)]), ("PAUSED", [])],
   [("h", SM.HeaterCfg.direct none)], [], none⟩

/-- C7 (witness): `make_transition_spec` instantiated on `smC7`: the unknown
state `"NOPE"` fails and mutates nothing; `"B"` succeeds and re-stamps the
state. -/
theorem make_transition_spec_witness :
    SM.make_transition smC7 5 "NOPE" = (false, smC7) ∧
    ∃ hs, SM.update_heater_setpoints smC7.states smC7.heaters "B" = Except.ok hs ∧
      SM.make_transition smC7 5 "B" =
        (true, { smC7 with current_state := "B", state_entry_time := 5, heaters := hs }) :=
  ⟨(make_transition_spec smC7 5 "NOPE").1 rfl,
   (make_transition_spec smC7 5 "B").2 [("h", 3)] rfl⟩

/-- C8: with a configured `state_change_password`, a `PUT /state` request with
a missing or wrong password yields HTTP 401 with the machine untouched; with
the password accepted and a known requested state it yields 200 and
`current_state` becomes the requested state; with no configured password the
password check accepts every request. -/
theorem set_state_password_gate (st : SM.SMState) (now : ℚ) (s : String)
    (pw : Option String) :
    ((st.required_password ≠ none ∧ pw ≠ st.required_password) →
      SM.set_state st now s pw = (401, st)) ∧
    (SM.validate_password st.required_password pw = true →
      ∀ cfg, dictLookup st.states s = some cfg →
        (SM.set_state st now s pw).1 = 200 ∧
        (SM.set_state st now s pw).2.current_state = s) ∧
    (st.required_password = none →
      SM.validate_password st.required_password pw = true) := by
  refine ⟨?_, ?_, ?_⟩
  · rintro ⟨hreq, hne⟩
    have hv : SM.validate_password st.required_password pw = false := by
      cases hr : st.required_password with
      | none => exact absurd hr hreq
      | some r =>
        cases hpw : pw with
        | none => simp [SM.validate_password]
        | some p =>
          have hpr : p ≠ r := by
            intro he
            apply hne
            rw [hr, hpw, he]
          simp [SM.validate_password, hpr]
    simp [SM.set_state, hv]
  · intro hv cfg hcfg
    obtain ⟨hs, _, hmt⟩ := make_transition_known st now s cfg hcfg
    simp [SM.set_state, hv, hmt]
  · intro h
    simp [SM.validate_password, h]

/-- A machine guarding state changes with the password `hunter2`. -/
def smC8 : SM.SMState :=
  ⟨"COLD", 0, [], [], [("COLD", []), ("WARM", []), ("PAUSED", [])], [], [], some "hunter2"⟩

/-- The same machine with no password configured. -/
def smC8open : SM.SMState :=
  ⟨"COLD", 0, [], [], [("COLD", []), ("WARM", []), ("PAUSED", [])], [], [], none⟩

/-- C8 (witness): `set_state_password_gate` instantiated on `smC8` (missing,
wrong, and correct password) and on `smC8open` (no password configured). -/
theorem set_state_password_gate_witness :
    SM.set_state smC8 1 "WARM" none = (401, smC8) ∧
    SM.set_state smC8 1 "WARM" (some "wrong") = (401, smC8) ∧
    (SM.set_state smC8 1 "WARM" (some "hunter2")).1 = 200 ∧
    (SM.set_state smC8 1 "WARM" (some "hunter2")).2.current_state = "WARM" ∧
    SM.validate_password smC8open.required_password (some "anything") = true :=
  ⟨(set_state_password_gate smC8 1 "WARM" none).1 ⟨by decide, by decide⟩,
   (set_state_password_gate smC8 1 "WARM" (some "wrong")).1 ⟨by decide, by decide⟩,
   ((set_state_password_gate smC8 1 "WARM" (some "hunter2")).2.1 (by decide) [] rfl).1,
   ((set_state_password_gate smC8 1 "WARM" (some "hunter2")).2.1 (by decide) [] rfl).2,
   (set_state_password_gate smC8open 1 "WARM" (some "anything")).2.2 rfl⟩

/-- C9: for every configuration document and constants table, the state table
produced by `_load_states` maps `PAUSED` to the empty target map — the final
`parsed_states['PAUSED'] = {}` assignment overwrites any `PAUSED` section the
configuration declared. -/
theorem load_states_paused_empty (constants : List (String × ℚ))
    (config_states : List (String × List (String × SM.TomlVal))) :
    dictLookup (SM.load_states constants config_states) "PAUSED" = some [] := by
  unfold SM.load_states
  exact dictLookup_dictSet _ "PAUSED" []

/-- C10: `StateMachineServer.set_heater_value` is atomic with respect to the
cached snapshot: an unknown heater name returns `False` with no HAL call
issued; a HAL write that raises returns `False` with `current_heater_values`
unchanged; only a successful HAL write returns `True` and sets the cache entry
to the written value. -/
theorem sm_set_heater_value_atomic (hal_write : String → ℚ → Except Unit Unit)
    (st : SM.SMState) (name : String) (value : ℚ) :
    (dictLookup st.heaters name = none →
      SM.sm_set_heater_value hal_write st name value = (false, st, [])) ∧
    (∀ cfg, dictLookup st.heaters name = some cfg →
      (hal_write name value = Except.error () →
        SM.sm_set_heater_value hal_write st name value = (false, st, [(name, value)])) ∧
      (hal_write name value = Except.ok () →
        SM.sm_set_heater_value hal_write st name value =
          (true,
           { st with current_heater_values := dictSet st.current_heater_values name value },
           [(name, value)]))) := by
  refine ⟨fun h => by simp [SM.sm_set_heater_value, h], fun cfg h => ⟨?_, ?_⟩⟩
  · intro hw
    simp [SM.sm_set_heater_value, h, hw]
  · intro hw
    simp [SM.sm_set_heater_value, h, hw]

/-- A machine with one registered direct heater `h` whose cached value is 0. -/
def smC10 : SM.SMState :=
  ⟨"A", 0, [], [], [("A", []), ("PAUSED", [])],
   [("h", SM.HeaterCfg.direct none)], [("h", 0)], none⟩

/-- C10 (witness): `sm_set_heater_value_atomic` instantiated on `smC10` with
an always-raising HAL (unknown and known heater) and a succeeding HAL. -/
theorem sm_set_heater_value_atomic_witness :
    SM.sm_set_heater_value (fun _ _ => Except.error ()) smC10 "nope" 2 =
      (false, smC10, []) ∧
    SM.sm_set_heater_value (fun _ _ => Except.error ()) smC10 "h" 2 =
      (false, smC10, [("h", 2)]) ∧
    SM.sm_set_heater_value (fun _ _ => Except.ok ()) smC10 "h" 2 =
      (true,
       { smC10 with current_heater_values := dictSet smC10.current_heater_values "h" 2 },
       [("h", 2)]) :=
  ⟨(sm_set_heater_value_atomic (fun _ _ => Except.error ()) smC10 "nope" 2).1 rfl,
   ((sm_set_heater_value_atomic (fun _ _ => Except.error ()) smC10 "h" 2).2
     (SM.HeaterCfg.direct none) rfl).1 rfl,
   ((sm_set_heater_value_atomic (fun _ _ => Except.ok ()) smC10 "h" 2).2
     (SM.HeaterCfg.direct none) rfl).2 rfl⟩

end FridgeOS
